import Mathlib

set_option maxRecDepth 100000

/-!
A shallow embedding of the Robotron Z9001/KC87 emulator of
`src/systems/z9001.h` (a chips-style single-header emulator).

Pure C helper functions become Lean functions; the mutable `z9001_t`
instance becomes an explicit state record that is threaded through the
operations.  Machine integers are modelled as `Nat` with explicit masking
(`&&& 0xFF`, `% 65536`, ...) exactly where the C code truncates.

The CPU, PIO, CTC, beeper and keyboard-matrix chips are external black
boxes (they live in the `chips/*.h` headers which are not part of this
repository); following the specification they are modelled as opaque
`Nat`-encoded states together with abstract tick functions collected in
the `ChipFns` record.  Everything that `z9001.h` itself does -- address
decoding, chip-select injection, the CTC cascade latch, the blink
counter, the quick-load parsers, the video decoder, snapshots -- is
translated directly from the source.
-/

namespace Z9001

/-! ### Pin layout

Bit positions of the shared 64-bit pin word, from the external
`chips/z80.h`, `chips/z80pio.h` and `chips/z80ctc.h` interfaces:
address bus bits 0..15, data bus bits 16..23, control pins from bit 24,
virtual daisy-chain pins below bit 40, `Z80_PIN_MASK` covering bits
0..39, and chip-specific pins (CE/CS/CLKTRG/ZCTO, PIO port and control
pins) from bit 40 upwards. -/

def Z80_A0 : Nat := 1 <<< 0
def Z80_A1 : Nat := 1 <<< 1
def Z80_A3 : Nat := 1 <<< 3
def Z80_A4 : Nat := 1 <<< 4
def Z80_A5 : Nat := 1 <<< 5
def Z80_A6 : Nat := 1 <<< 6
def Z80_A7 : Nat := 1 <<< 7
def Z80_M1 : Nat := 1 <<< 24
def Z80_MREQ : Nat := 1 <<< 25
def Z80_IORQ : Nat := 1 <<< 26
def Z80_RD : Nat := 1 <<< 27
def Z80_WR : Nat := 1 <<< 28
def Z80_IEIO : Nat := 1 <<< 37
def Z80_PIN_MASK : Nat := (1 <<< 40) - 1

def Z80PIO_CE : Nat := 1 <<< 40
def Z80PIO_BASEL : Nat := 1 <<< 41
def Z80PIO_CDSEL : Nat := 1 <<< 42

def Z80CTC_CE : Nat := 1 <<< 40
def Z80CTC_CS0 : Nat := 1 <<< 41
def Z80CTC_CS1 : Nat := 1 <<< 42
def Z80CTC_CLKTRG3 : Nat := 1 <<< 46
def Z80CTC_ZCTO0 : Nat := 1 <<< 47
def Z80CTC_ZCTO2 : Nat := 1 <<< 49

/-- Source `Z80_GET_ADDR(pins)`: the 16 address-bus bits. -/
def Z80_GET_ADDR (pins : Nat) : Nat := pins &&& 0xFFFF

/-- Source `Z80_GET_DATA(pins)`: the 8 data-bus bits. -/
def Z80_GET_DATA (pins : Nat) : Nat := (pins >>> 16) &&& 0xFF

/-- Source `Z80_SET_DATA(pins,d)`: replace the 8 data-bus bits (64-bit word). -/
def Z80_SET_DATA (pins d : Nat) : Nat :=
  (pins &&& 0xFFFFFFFFFF00FFFF) ||| ((d &&& 0xFF) <<< 16)

/-- Source `Z80PIO_SET_PAB(pins,a,b)`: place port-A/port-B input bytes on pin
bits 48..55 / 56..63 (64-bit word). -/
def Z80PIO_SET_PAB (pins a b : Nat) : Nat :=
  (pins &&& ((1 <<< 48) - 1)) ||| ((a &&& 0xFF) <<< 48) ||| ((b &&& 0xFF) <<< 56)

/-- Source `Z80PIO_GET_PA(pins)`. -/
def Z80PIO_GET_PA (pins : Nat) : Nat := (pins >>> 48) &&& 0xFF

/-- Source `Z80PIO_GET_PB(pins)`. -/
def Z80PIO_GET_PB (pins : Nat) : Nat := (pins >>> 56) &&& 0xFF

/-! ### IO address decoding masks (from `z9001.h`) -/

def IO_SEL_MASK : Nat := Z80_IORQ ||| Z80_M1 ||| Z80_A7 ||| Z80_A6
def IO_SEL_PINS : Nat := Z80_IORQ ||| Z80_A7
def CTC_SEL_MASK : Nat := IO_SEL_MASK ||| Z80_A5 ||| Z80_A4 ||| Z80_A3
def CTC_SEL_PINS : Nat := IO_SEL_PINS
def PIO1_SEL_MASK : Nat := IO_SEL_MASK ||| Z80_A5 ||| Z80_A4 ||| Z80_A3
def PIO1_SEL_PINS : Nat := IO_SEL_PINS ||| Z80_A3
def PIO2_SEL_MASK : Nat := IO_SEL_MASK ||| Z80_A5 ||| Z80_A4 ||| Z80_A3
def PIO2_SEL_PINS : Nat := IO_SEL_PINS ||| Z80_A4

/-- Source `_Z9001_FREQUENCY`: the 2.4576 MHz system clock. -/
def FREQUENCY : Nat := 2457600

/-- Source `Z9001_SNAPSHOT_VERSION`. -/
def Z9001_SNAPSHOT_VERSION : Nat := 1

/-! ### Machine state -/

/-- The Z80 register fields of the external `z80_t` that `z9001.h`
itself touches (`_z9001_load_start`, `z80_prefetch`); `pc` is the
address of the next instruction fetch. -/
structure Z80State where
  a : Nat
  f : Nat
  bc : Nat
  de : Nat
  hl : Nat
  af2 : Nat
  bc2 : Nat
  de2 : Nat
  hl2 : Nat
  pc : Nat
  deriving DecidableEq, Repr

/-- The `z9001_t` machine instance.  Chip-internal states (`z80pio_t`,
`z80ctc_t`, `beeper_t`, `kbd_t`) and the callback handles are opaque
`Nat` encodings; `memBound` is the symbolic form of the memory
decoder's back-pointer to the owning instance (true = bound to the
enclosing instance, false = the offset form produced by
`mem_snapshot_onsave`). -/
structure Z9001State where
  cpu : Z80State
  pio1 : Nat
  pio2 : Nat
  ctc : Nat
  beeper : Nat
  kbd : Nat
  blink_flip_flop : Nat
  isKC87 : Bool
  pins : Nat
  ctc_zcto2 : Nat
  blink_counter : Nat
  valid : Bool
  hasBasic : Bool
  debug : Nat
  audioCallback : Nat
  audioNumSamples : Nat
  audioSamplePos : Nat
  audioBuffer : Nat
  memBound : Bool
  ram : Nat → Nat
  rom : Nat → Nat
  rom_font : Nat → Nat
  fb : Nat → Nat

/-! ### Memory decoder

Modelled from the spec (§4.2) and the map built in `z9001_init`: the
external `mem.h` decoder resolves an address through two priority
layers.  Layer 0 holds the writable RAM windows (`mem_map_ram`), layer
1 the ROMs (`mem_map_rom`); writes to ROM-mapped or unmapped addresses
are discarded, unmapped reads return 0xFF.  The RAM windows are backed
by `sys->ram` at identical offsets, so a mapped RAM address `a` reads
and writes `ram[a]`. -/

/-- Whether a write through the memory map reaches RAM, per the map set
up in `z9001_init` for each model variant. -/
def memWritable (isKC87 : Bool) (a : Nat) : Bool :=
  if isKC87 then a < 0xC000 || (0xE800 ≤ a && a < 0xF000)
  else a < 0x8000 || (0xEC00 ≤ a && a < 0xF000)

/-- Source `mem_wr`: write one byte through the layered memory map (16-bit
address, ROM/unmapped writes discarded). -/
def mem_wr (s : Z9001State) (addr v : Nat) : Z9001State :=
  let a := addr % 65536
  if memWritable s.isKC87 a then
    { s with ram := fun x => if x = a then v % 256 else s.ram x }
  else s

/-- Source `mem_rd`: read one byte through the layered memory map. -/
def mem_rd (s : Z9001State) (addr : Nat) : Nat :=
  let a := addr % 65536
  if s.isKC87 then
    if a < 0xC000 then s.ram a
    else if 0xE800 ≤ a ∧ a < 0xF000 then s.ram a
    else if a < 0xE000 then s.rom (a - 0xC000)
    else s.rom (0x2000 + (a - 0xE000))
  else
    if a < 0x8000 then s.ram a
    else if 0xEC00 ≤ a ∧ a < 0xF000 then s.ram a
    else if s.hasBasic ∧ 0xC000 ≤ a ∧ a < 0xE800 then s.rom (a - 0xC000)
    else if 0xF000 ≤ a ∧ a < 0xF800 then s.rom (0x3000 + (a - 0xF000))
    else if 0xF800 ≤ a then s.rom (0x3800 + (a - 0xF800))
    else 0xFF

/-! ### Quick-load parsers (`z9001_quickload` and helpers) -/

/-- Byte `i` of the supplied file data (the C code reads raw `uint8_t`;
out-of-range indices default to 0). -/
def byteAt (d : List Nat) (i : Nat) : Nat := d.getD i 0 % 256

/-- Source `num_addr` field of a KCC header located at byte offset `base`. -/
def hdrNumAddr (d : List Nat) (base : Nat) : Nat := byteAt d (base + 16)

/-- Source `load_addr_h<<8 | load_addr_l` of a KCC header at offset `base`. -/
def hdrLoadAddr (d : List Nat) (base : Nat) : Nat :=
  (byteAt d (base + 18)) <<< 8 ||| byteAt d (base + 17)

/-- Source `end_addr_h<<8 | end_addr_l` of a KCC header at offset `base`. -/
def hdrEndAddr (d : List Nat) (base : Nat) : Nat :=
  (byteAt d (base + 20)) <<< 8 ||| byteAt d (base + 19)

/-- Source `exec_addr_h<<8 | exec_addr_l` of a KCC header at offset `base`. -/
def hdrExecAddr (d : List Nat) (base : Nat) : Nat :=
  (byteAt d (base + 22)) <<< 8 ||| byteAt d (base + 21)

/-- Source `sizeof(_z9001_kcc_header)`. -/
def kccHeaderSize : Nat := 128

/-- Source `sizeof(_z9001_kctap_header)` (16 signature bytes + 1 type byte +
embedded KCC header). -/
def kctapHeaderSize : Nat := 145

/-- Source `_z9001_is_valid_kcc`. -/
def z9001_is_valid_kcc (d : List Nat) : Bool :=
  if d.length ≤ kccHeaderSize then false
  else if !((List.range 16).all (fun i => byteAt d i < 128)) then false
  else if hdrNumAddr d 0 > 3 then false
  else if hdrEndAddr d 0 ≤ hdrLoadAddr d 0 then false
  else if hdrNumAddr d 0 > 2 &&
      (hdrExecAddr d 0 < hdrLoadAddr d 0 || hdrExecAddr d 0 > hdrEndAddr d 0) then false
  else if (hdrEndAddr d 0 - hdrLoadAddr d 0) + kccHeaderSize > d.length then false
  else true

/-- The fixed KC TAP signature bytes. -/
def kctapSig : List Nat :=
  [0xC3, 75, 67, 45, 84, 65, 80, 69, 0x20, 98, 121, 0x20, 65, 70, 46, 0x20]

/-- Source `_z9001_is_valid_kctap`. -/
def z9001_is_valid_kctap (d : List Nat) : Bool :=
  if d.length ≤ kctapHeaderSize then false
  else if !((List.range 16).all (fun i => byteAt d i = kctapSig.getD i 0)) then false
  else if hdrNumAddr d 17 > 3 then false
  else if hdrEndAddr d 17 ≤ hdrLoadAddr d 17 then false
  else if hdrNumAddr d 17 > 2 &&
      (hdrExecAddr d 17 < hdrLoadAddr d 17 || hdrExecAddr d 17 > hdrEndAddr d 17) then false
  else if (hdrEndAddr d 17 - hdrLoadAddr d 17) + kctapHeaderSize > d.length then false
  else true

/-- Source `z80_prefetch` (external): the pin word that primes the CPU to
fetch at `addr`; modelled from the spec as carrying the fetch address
on the address bus. -/
def z80_prefetch_pins (addr : Nat) : Nat := addr &&& 0xFFFF

/-- Source `_z9001_load_start`: clear the CPU registers and redirect the next
fetch to `exec_addr`. -/
def z9001_load_start (s : Z9001State) (exec_addr : Nat) : Z9001State :=
  { s with
      cpu := { a := 0x00, f := 0x10, bc := 0, de := 0, hl := 0,
               af2 := 0, bc2 := 0, de2 := 0, hl2 := 0, pc := exec_addr &&& 0xFFFF }
      pins := z80_prefetch_pins exec_addr }

/-- The `while (addr < end_addr) mem_wr(addr++, *ptr++)` loop of
`_z9001_load_kcc`, with the iteration count `n = end_addr - addr`
made explicit (`addr` is a `uint16_t` that never wraps here since
`addr < end_addr ≤ 0xFFFF`). -/
def kccWriteLoop (d : List Nat) : Nat → Z9001State → Nat → Nat → Z9001State
  | 0, s, _, _ => s
  | n + 1, s, addr, ofs => kccWriteLoop d n (mem_wr s addr (byteAt d ofs)) (addr + 1) (ofs + 1)

/-- Source `_z9001_load_kcc`: write the continuous payload to
`[load_addr, end_addr)` and return `false` (sic -- this is what the
source returns). -/
def z9001_load_kcc (s : Z9001State) (d : List Nat) : Z9001State × Bool :=
  let loadAddr := hdrLoadAddr d 0
  let endAddr := hdrEndAddr d 0
  (kccWriteLoop d (endAddr - loadAddr) s loadAddr kccHeaderSize, false)

/-- The inner `for (i = 0; i < 128; i++) mem_wr(addr++, *ptr++)` of
`_z9001_load_kctap` (`addr` is a `uint16_t`; `mem_wr` truncates). -/
def kctapWriteBlock (d : List Nat) : Nat → Z9001State → Nat → Nat → Z9001State
  | 0, s, _, _ => s
  | n + 1, s, addr, ofs => kctapWriteBlock d n (mem_wr s addr (byteAt d ofs)) (addr + 1) (ofs + 1)

/-- The `while (addr < end_addr)` block loop of `_z9001_load_kctap`:
each iteration skips one lead byte and copies 128 payload bytes.  The
loop is given explicit fuel; 513 iterations are more than any
terminating execution of the C loop can perform (the 16-bit `addr`
stepped by 128 revisits its start value after 512 iterations). -/
def kctapBlockLoop (d : List Nat) (endAddr : Nat) : Nat → Z9001State → Nat → Nat → Z9001State
  | 0, s, _, _ => s
  | fuel + 1, s, addr, ofs =>
    if addr < endAddr then
      kctapBlockLoop d endAddr fuel (kctapWriteBlock d 128 s addr (ofs + 1))
        ((addr + 128) % 65536) (ofs + 129)
    else s

/-- Source `_z9001_load_kctap`: copy the blocked payload, then start the
program if the header declares an exec address; returns `true`. -/
def z9001_load_kctap (s : Z9001State) (d : List Nat) : Z9001State × Bool :=
  let loadAddr := hdrLoadAddr d 17
  let endAddr := hdrEndAddr d 17
  let s1 := kctapBlockLoop d endAddr 513 s loadAddr kctapHeaderSize
  let s2 := if hdrNumAddr d 17 > 2 then z9001_load_start s1 (hdrExecAddr d 17) else s1
  (s2, true)

/-- The number of 129-byte blocks the KC TAP block loop copies for the
range `[loadAddr, endAddr)`: one per started 128-byte chunk. -/
def blockCount (loadAddr endAddr : Nat) : Nat := (endAddr - loadAddr + 127) / 128

/-- The first address beyond the block-aligned region the KC TAP block
loop writes: `loadAddr + 128 * ceil((endAddr-loadAddr)/128)`. -/
def blockEnd (loadAddr endAddr : Nat) : Nat :=
  loadAddr + 128 * blockCount loadAddr endAddr

/-- Source `z9001_quickload`: KC TAP is checked first (it can be identified by
its signature), then KCC. -/
def z9001_quickload (s : Z9001State) (d : List Nat) : Z9001State × Bool :=
  if z9001_is_valid_kctap d then z9001_load_kctap s d
  else if z9001_is_valid_kcc d then z9001_load_kcc s d
  else (s, false)

/-! ### Bus tick orchestrator (`_z9001_tick`)

The CPU, PIO, CTC, beeper and keyboard chips are external black boxes;
their tick functions are abstract parameters collected in `ChipFns`
(state in, pin word in, state and pin word out), exactly the tick
contracts the spec assigns them.  Everything else below is translated
from `_z9001_tick`. -/

/-- The external chip tick/scan contracts consumed by `_z9001_tick`
and `z9001_exec`. -/
structure ChipFns where
  z80_tick : Z80State → Nat → Z80State × Nat
  pio1_tick : Nat → Nat → Nat × Nat
  pio2_tick : Nat → Nat → Nat × Nat
  ctc_tick : Nat → Nat → Nat × Nat
  beeper_toggle : Nat → Nat
  beeper_tick : Nat → Nat × Bool
  audio_store : Nat → Nat → Nat
  kbd_scan_columns : Nat → Nat
  kbd_scan_lines : Nat → Nat
  kbd_set_active_columns : Nat → Nat → Nat
  kbd_set_active_lines : Nat → Nat → Nat
  kbd_update : Nat → Nat → Nat

/-- Memory phase of `_z9001_tick`: service an asserted memory request
through the memory decoder. -/
def tickMemPhase (s : Z9001State) (pins : Nat) : Z9001State × Nat :=
  if pins &&& Z80_MREQ ≠ 0 then
    let addr := Z80_GET_ADDR pins
    if pins &&& Z80_RD ≠ 0 then (s, Z80_SET_DATA pins (mem_rd s addr))
    else if pins &&& Z80_WR ≠ 0 then (mem_wr s addr (Z80_GET_DATA pins), pins)
    else (s, pins)
  else (s, pins)

/-- PIO-1 phase of `_z9001_tick` (highest-priority daisychain device):
raise IEIO, decode the chip select and register-select pins, tick the
chip, and strip the chip-specific pins again. -/
def tickPio1Phase (cf : ChipFns) (s : Z9001State) (pins : Nat) : Z9001State × Nat :=
  let pins := pins ||| Z80_IEIO
  let pins := if pins &&& PIO1_SEL_MASK = PIO1_SEL_PINS then pins ||| Z80PIO_CE else pins
  let pins := if pins &&& Z80_A0 ≠ 0 then pins ||| Z80PIO_BASEL else pins
  let pins := if pins &&& Z80_A1 ≠ 0 then pins ||| Z80PIO_CDSEL else pins
  let r := cf.pio1_tick s.pio1 pins
  ({ s with pio1 := r.1 }, r.2 &&& Z80_PIN_MASK)

/-- PIO-2 phase of `_z9001_tick`: chip select, keyboard matrix scan
outputs presented (inverted) as port inputs, tick, feed the (inverted)
port outputs back into the keyboard matrix drive lines, strip chip
pins. -/
def tickPio2Phase (cf : ChipFns) (s : Z9001State) (pins : Nat) : Z9001State × Nat :=
  let pins := if pins &&& PIO2_SEL_MASK = PIO2_SEL_PINS then pins ||| Z80PIO_CE else pins
  let pins := if pins &&& Z80_A0 ≠ 0 then pins ||| Z80PIO_BASEL else pins
  let pins := if pins &&& Z80_A1 ≠ 0 then pins ||| Z80PIO_CDSEL else pins
  let pa_in := (cf.kbd_scan_columns s.kbd &&& 0xFF) ^^^ 0xFF
  let pb_in := (cf.kbd_scan_lines s.kbd &&& 0xFF) ^^^ 0xFF
  let pins := Z80PIO_SET_PAB pins pa_in pb_in
  let r := cf.pio2_tick s.pio2 pins
  let pa_out := Z80PIO_GET_PA r.2 ^^^ 0xFF
  let pb_out := Z80PIO_GET_PB r.2 ^^^ 0xFF
  let kbd := cf.kbd_set_active_lines (cf.kbd_set_active_columns s.kbd pa_out) pb_out
  ({ s with pio2 := r.1, kbd := kbd }, r.2 &&& Z80_PIN_MASK)

/-- The pin word presented to `z80ctc_tick` by the CTC phase: the
latched ZCTO2 state is re-injected, the chip select and CS0/CS1 pins
are decoded, and ZCTO2 is looped back into CLKTRG3 (the channel-2 to
channel-3 timer cascade). -/
def tickCtcPinsIn (s : Z9001State) (pins : Nat) : Nat :=
  let pins := pins ||| s.ctc_zcto2
  let pins := if pins &&& CTC_SEL_MASK = CTC_SEL_PINS then pins ||| Z80CTC_CE else pins
  let pins := if pins &&& Z80_A0 ≠ 0 then pins ||| Z80CTC_CS0 else pins
  let pins := if pins &&& Z80_A1 ≠ 0 then pins ||| Z80CTC_CS1 else pins
  if pins &&& Z80CTC_ZCTO2 ≠ 0 then pins ||| Z80CTC_CLKTRG3 else pins

/-- CTC phase of `_z9001_tick`: tick the CTC on `tickCtcPinsIn`,
toggle the beeper on ZCTO0, latch the new ZCTO2 state, strip chip
pins. -/
def tickCtcPhase (cf : ChipFns) (s : Z9001State) (pins : Nat) : Z9001State × Nat :=
  let r := cf.ctc_tick s.ctc (tickCtcPinsIn s pins)
  let beeper := if r.2 &&& Z80CTC_ZCTO0 ≠ 0 then cf.beeper_toggle s.beeper else s.beeper
  ({ s with ctc := r.1, beeper := beeper, ctc_zcto2 := r.2 &&& Z80CTC_ZCTO2 },
   r.2 &&& Z80_PIN_MASK)

/-- Audio phase of `_z9001_tick`: tick the beeper; when a sample is
ready append it to the sample buffer, and on a full buffer invoke the
(external, machine-state-free) audio callback and reset the write
cursor. -/
def tickAudioPhase (cf : ChipFns) (s : Z9001State) : Z9001State :=
  let r := cf.beeper_tick s.beeper
  if r.2 then
    let buf := cf.audio_store s.audioBuffer r.1
    let pos := s.audioSamplePos + 1
    if pos = s.audioNumSamples then
      { s with beeper := r.1, audioBuffer := buf, audioSamplePos := 0 }
    else
      { s with beeper := r.1, audioBuffer := buf, audioSamplePos := pos }
  else { s with beeper := r.1 }

/-- Blink phase of `_z9001_tick` on the `(blink_counter,
blink_flip_flop)` pair: `if (0 >= sys->blink_counter--) { reload to
(_Z9001_FREQUENCY*8)/25; flip bit 7 }` -- for the unsigned counter the
test holds exactly at zero, and the reload overwrites the wrapped
decrement. -/
def blinkStep (bc ff : Nat) : Nat × Nat :=
  if bc = 0 then ((FREQUENCY * 8) / 25, ff ^^^ 0x80) else (bc - 1, ff)

/-- Source `_z9001_tick`: one full bus cycle -- CPU tick, memory phase, PIO-1,
PIO-2, CTC (with cascade), audio, blink. -/
def z9001_tick (cf : ChipFns) (s : Z9001State) (pins : Nat) : Z9001State × Nat :=
  let rc := cf.z80_tick s.cpu pins
  let s := { s with cpu := rc.1 }
  let m := tickMemPhase s rc.2
  let p1 := tickPio1Phase cf m.1 m.2
  let p2 := tickPio2Phase cf p1.1 p1.2
  let ct := tickCtcPhase cf p2.1 p2.2
  let sa := tickAudioPhase cf ct.1
  let bl := blinkStep sa.blink_counter sa.blink_flip_flop
  ({ sa with blink_counter := bl.1, blink_flip_flop := bl.2 }, ct.2)

/-- The exact pin word that `_z9001_tick` presents to `z80ctc_tick`:
the CPU/memory/PIO-1/PIO-2 phases run first, then `tickCtcPinsIn`
decorates the resulting bus word (the prefix of `z9001_tick` up to the
CTC call). -/
def ctcTickInput (cf : ChipFns) (s : Z9001State) (pins : Nat) : Nat :=
  let rc := cf.z80_tick s.cpu pins
  let m := tickMemPhase { s with cpu := rc.1 } rc.2
  let p1 := tickPio1Phase cf m.1 m.2
  let p2 := tickPio2Phase cf p1.1 p1.2
  tickCtcPinsIn p2.1 p2.2

/-! ### `z9001_exec` -/

/-- Source `clk_us_to_ticks` (external `clk.h` interface): convert a duration
in microseconds to a whole number of clock ticks. -/
def clk_us_to_ticks (freq us : Nat) : Nat := freq * us / 1000000

/-- The undebugged exec loop: run `n` ticks. -/
def runTicks (cf : ChipFns) : Nat → Z9001State → Nat → Z9001State × Nat
  | 0, s, pins => (s, pins)
  | n + 1, s, pins =>
    let t := z9001_tick cf s pins
    runTicks cf n t.1 t.2

/-- The debug-hook exec loop: before each tick the loop re-checks the
externally writable `*sys->debug.stopped` flag, modelled as the oracle
`stopped` indexed by the tick counter; the debug callback itself only
touches external state.  Returns the final state, pin word, and the
number of ticks actually executed. -/
def runTicksDbg (cf : ChipFns) (stopped : Nat → Bool) :
    Nat → Nat → Z9001State → Nat → Z9001State × Nat × Nat
  | 0, tick, s, pins => (s, pins, tick)
  | rem + 1, tick, s, pins =>
    if stopped tick then (s, pins, tick)
    else
      let t := z9001_tick cf s pins
      runTicksDbg cf stopped rem (tick + 1) t.1 t.2

/-! ### Video decoder (`_z9001_decode_vidmem`) -/

/-- The 16-entry nibble lookup table of `_z9001_decode_8pixels`
(`lut32`). -/
def lut32 (n : Nat) : Nat :=
  [0x00000000, 0xff000000, 0x00ff0000, 0xffff0000,
   0x0000ff00, 0xff00ff00, 0x00ffff00, 0xffffff00,
   0x000000ff, 0xff0000ff, 0x00ff00ff, 0xffff00ff,
   0x0000ffff, 0xff00ffff, 0x00ffffff, 0xffffffff].getD n 0

/-- Source `_z9001_decode_8pixels`, expressed per destination byte: byte `i`
(0..7) of the 8 bytes the two little-endian `uint32` stores write to
`dst`. -/
def decode8Pixels (pixels colors : Nat) (i : Nat) : Nat :=
  let colors32 := colors * 0x01010101
  let bg32 := colors32 &&& 0x07070707
  let fg32 := (colors32 >>> 4) &&& 0x07070707
  let xor32 := bg32 ^^^ fg32
  let w := if i < 4 then bg32 ^^^ (xor32 &&& lut32 (pixels >>> 4))
           else bg32 ^^^ (xor32 &&& lut32 (pixels &&& 0xF))
  (w >>> (8 * (i % 4))) &&& 0xFF

/-- Source `Z9001_FRAMEBUFFER_WIDTH`. -/
def FB_WIDTH : Nat := 512

/-- The colour byte used for the cell at `colmem[offset+x]`: the KC87
branch reads the colour RAM at 0xE800 and swaps fore/background when
the cell's blink bit and the blink flip-flop are both set; the
monochrome Z9001 branch always uses `0x70`. -/
def cellColors (s : Z9001State) (offset x : Nat) : Nat :=
  if s.isKC87 then
    let c := s.ram (0xE800 + (offset + x))
    if c &&& s.blink_flip_flop &&& 0x80 ≠ 0 then ((c &&& 7) <<< 4) ||| ((c >>> 4) &&& 7)
    else c
  else 0x70

/-- The glyph row byte for the cell: `font[(chr<<3)|py]` with
`chr = vidmem[offset+x]` read from the ASCII video RAM at 0xEC00. -/
def cellPixels (s : Z9001State) (offset x py : Nat) : Nat :=
  s.rom_font ((s.ram (0xEC00 + (offset + x)) <<< 3) ||| py)

/-- The effect of one `_z9001_decode_8pixels(dst, ...)` call on the
framebuffer, as a function update of the 8 bytes at `base`. -/
def writeCell (fb : Nat → Nat) (base pixels colors : Nat) : Nat → Nat :=
  fun idx => if base ≤ idx ∧ idx < base + 8 then decode8Pixels pixels colors (idx - base)
             else fb idx

/-- The inner `for (x...; x < 40)` column loop of
`_z9001_decode_vidmem`, for the first `n` columns of the scanline
whose framebuffer row starts at `rowBase`. -/
def decodeCols (s : Z9001State) (offset rowBase py : Nat) : Nat → (Nat → Nat) → Nat → Nat
  | 0, fb => fb
  | x + 1, fb => writeCell (decodeCols s offset rowBase py x fb) (rowBase + 8 * x)
      (cellPixels s offset x py) (cellColors s offset x)

/-- The `for (py...; py < 8)` scanline loop for character row `y`. -/
def decodeScanlines (s : Z9001State) (offset y : Nat) : Nat → (Nat → Nat) → Nat → Nat
  | 0, fb => fb
  | py + 1, fb => decodeCols s offset ((y * 8 + py) * FB_WIDTH) py 40
      (decodeScanlines s offset y py fb)

/-- The outer `for (y...; y < 24)` character-row loop
(`offset += 40` per row). -/
def decodeRows (s : Z9001State) : Nat → (Nat → Nat) → Nat → Nat
  | 0, fb => fb
  | y + 1, fb => decodeScanlines s (40 * y) y 8 (decodeRows s y fb)

/-- Source `_z9001_decode_vidmem`: regenerate the framebuffer (24 rows x 8
scanlines x 40 columns; both the KC87 colour branch and the Z9001
monochrome branch are this loop nest, differing only in
`cellColors`). -/
def z9001_decode_vidmem (s : Z9001State) : Z9001State :=
  { s with fb := decodeRows s 24 s.fb }

/-- Source `z9001_exec`: convert microseconds to ticks, run the tick loop
(with or without the debug hook), store the final pin word, advance
the keyboard sticky counters, redraw the framebuffer, and return the
converted tick count. -/
def z9001_exec (cf : ChipFns) (stopped : Nat → Bool) (s : Z9001State) (us : Nat) :
    Z9001State × Nat :=
  let num := clk_us_to_ticks FREQUENCY us
  let r := if s.debug = 0 then runTicks cf num s s.pins
           else
             let rd := runTicksDbg cf stopped num 0 s s.pins
             (rd.1, rd.2.1)
  let s1 := { r.1 with pins := r.2, kbd := cf.kbd_update r.1.kbd us }
  (z9001_decode_vidmem s1, num)

/-- The number of ticks `z9001_exec` actually executes (the loop trip
count): all `num_ticks` of them without a debug hook, possibly fewer
with one. -/
def z9001_exec_executed (cf : ChipFns) (stopped : Nat → Bool) (s : Z9001State) (us : Nat) :
    Nat :=
  let num := clk_us_to_ticks FREQUENCY us
  if s.debug = 0 then num
  else (runTicksDbg cf stopped num 0 s s.pins).2.2

/-! ### Display info and snapshots -/

/-- The fixed display contract returned by `z9001_display_info`. -/
structure ChipsDisplayInfo where
  frameWidth : Nat
  frameHeight : Nat
  bytesPerPixel : Nat
  screenX : Nat
  screenY : Nat
  screenWidth : Nat
  screenHeight : Nat
  palette : List Nat
  deriving Repr

/-- Source `z9001_display_info`: framebuffer dimensions, visible region, and
the fixed 8-entry RGBA palette. -/
def z9001_display_info : ChipsDisplayInfo :=
  { frameWidth := 512, frameHeight := 192, bytesPerPixel := 1,
    screenX := 0, screenY := 0, screenWidth := 320, screenHeight := 192,
    palette := [0xFF000000, 0xFF0000FF, 0xFF00FF00, 0xFF00FFFF,
                0xFFFF0000, 0xFFFF00FF, 0xFFFFFF00, 0xFFFFFFFF] }

/-- Source `z9001_save_snapshot`: copy the whole instance, then patch the
context-bound fields (`chips_debug_snapshot_onsave`,
`chips_audio_callback_snapshot_onsave` zero the callback handles,
`mem_snapshot_onsave` turns the memory decoder's instance pointers into
offsets -- `memBound := false`); returns the layout version. -/
def z9001_save_snapshot (s : Z9001State) : Z9001State × Nat :=
  ({ s with debug := 0, audioCallback := 0, memBound := false }, Z9001_SNAPSHOT_VERSION)

/-- Source `z9001_load_snapshot`: reject a version mismatch before touching
anything; otherwise stage a copy of `src`, re-bind the context-bound
fields to the destination instance (`..._onload` restore the live
callback handles, `mem_snapshot_onload` re-bases the decoder pointers
-- `memBound := true`), and commit. -/
def z9001_load_snapshot (s : Z9001State) (version : Nat) (src : Z9001State) :
    Z9001State × Bool :=
  if version ≠ Z9001_SNAPSHOT_VERSION then (s, false)
  else ({ src with debug := s.debug, audioCallback := s.audioCallback, memBound := true },
        true)

/-! ### Concrete fixtures for witnesses and counterexamples -/

/-- A CPU state primed at the firmware entry address 0xF000. -/
def cpu0 : Z80State :=
  { a := 0, f := 0, bc := 0, de := 0, hl := 0,
    af2 := 0, bc2 := 0, de2 := 0, hl2 := 0, pc := 0xF000 }

/-- A concrete Z9001 (monochrome, BASIC module) machine state with
zeroed memory. -/
def s0 : Z9001State :=
  { cpu := cpu0, pio1 := 0, pio2 := 0, ctc := 0, beeper := 0, kbd := 0,
    blink_flip_flop := 0, isKC87 := false, pins := 0, ctc_zcto2 := 0,
    blink_counter := 0, valid := true, hasBasic := true, debug := 0,
    audioCallback := 0, audioNumSamples := 128, audioSamplePos := 0,
    audioBuffer := 0, memBound := true,
    ram := fun _ => 0, rom := fun _ => 0, rom_font := fun _ => 0, fb := fun _ => 0 }

/-- Trivial instantiation of the external chip contracts (each chip
passes its state and the pin word through unchanged). -/
def cf0 : ChipFns :=
  { z80_tick := fun c p => (c, p), pio1_tick := fun st p => (st, p),
    pio2_tick := fun st p => (st, p), ctc_tick := fun st p => (st, p),
    beeper_toggle := fun b => b, beeper_tick := fun b => (b, false),
    audio_store := fun buf _ => buf,
    kbd_scan_columns := fun _ => 0, kbd_scan_lines := fun _ => 0,
    kbd_set_active_columns := fun k _ => k, kbd_set_active_lines := fun k _ => k,
    kbd_update := fun k _ => k }

/-- A 129-byte bare (KCC) image: name "T", `num_addr = 2`, load
address 0x0300, end address 0x0301, one payload byte 0xAB.  It passes
every plausibility check of `_z9001_is_valid_kcc`. -/
def kccData1 : List Nat :=
  [84] ++ List.replicate 15 0 ++ [2, 0x00, 0x03, 0x01, 0x03, 0, 0]
    ++ List.replicate 105 0 ++ [0xAB]

/-- A 144-byte bare (KCC) image with a declared execute address: name
"T", `num_addr = 3`, load 0x0300, end 0x0310, exec 0x0305, payload
bytes 1..16. -/
def kccData2 : List Nat :=
  [84] ++ List.replicate 15 0 ++ [3, 0x00, 0x03, 0x10, 0x03, 0x05, 0x03]
    ++ List.replicate 105 0 ++ (List.range 16).map (fun i => i + 1)

/-- A 274-byte wrapped (KC TAP) image: signature, type 0, `num_addr =
2`, load 0x0200, end 0x0210, no exec address, one 129-byte block (lead
byte 0xEE, data bytes 1..128). -/
def kctapData1 : List Nat :=
  kctapSig ++ [0] ++ List.replicate 16 0 ++ [2, 0x00, 0x02, 0x10, 0x02, 0, 0]
    ++ List.replicate 105 0 ++ [0xEE] ++ (List.range 128).map (fun i => i + 1)

/-- A machine state with an installed debug hook. -/
def s4 : Z9001State := { s0 with debug := 5 }

/-- A debug-stop oracle that requests termination immediately. -/
def stopAlways : Nat → Bool := fun _ => true

/-! ## Theorems -/

/-- Helper: the debug loop never executes more than `rem` further
ticks. -/
theorem runTicksDbg_count_le (cf : ChipFns) (stopped : Nat → Bool) :
    ∀ rem tick (s : Z9001State) (pins : Nat),
      (runTicksDbg cf stopped rem tick s pins).2.2 ≤ tick + rem := by
  intro rem
  induction rem with
  | zero =>
    intro tick s pins
    simp [runTicksDbg]
  | succ n ih =>
    intro tick s pins
    simp only [runTicksDbg]
    split
    · simp
    · exact le_trans (ih (tick + 1) _ _) (by omega)

/-- Helper: `mem_wr` changes only the RAM contents. -/
theorem mem_wr_blink (s : Z9001State) (a v : Nat) :
    (mem_wr s a v).blink_counter = s.blink_counter ∧
    (mem_wr s a v).blink_flip_flop = s.blink_flip_flop := by
  simp only [mem_wr]
  split <;> exact ⟨rfl, rfl⟩

/-- Helper: the memory phase leaves the blink state alone. -/
theorem tickMemPhase_blink (s : Z9001State) (p : Nat) :
    (tickMemPhase s p).1.blink_counter = s.blink_counter ∧
    (tickMemPhase s p).1.blink_flip_flop = s.blink_flip_flop := by
  simp only [tickMemPhase]
  split
  · split
    · exact ⟨rfl, rfl⟩
    · split
      · exact mem_wr_blink s _ _
      · exact ⟨rfl, rfl⟩
  · exact ⟨rfl, rfl⟩

/-- Helper: the audio phase leaves the blink state alone. -/
theorem tickAudioPhase_blink (cf : ChipFns) (s : Z9001State) :
    (tickAudioPhase cf s).blink_counter = s.blink_counter ∧
    (tickAudioPhase cf s).blink_flip_flop = s.blink_flip_flop := by
  simp only [tickAudioPhase]
  split
  · split <;> exact ⟨rfl, rfl⟩
  · exact ⟨rfl, rfl⟩

/-- Helper: one `_z9001_tick` advances the blink state by exactly one
`blinkStep` (no other phase touches it). -/
theorem z9001_tick_blink (cf : ChipFns) (s : Z9001State) (pins : Nat) :
    (z9001_tick cf s pins).1.blink_counter
        = (blinkStep s.blink_counter s.blink_flip_flop).1 ∧
    (z9001_tick cf s pins).1.blink_flip_flop
        = (blinkStep s.blink_counter s.blink_flip_flop).2 := by
  simp only [z9001_tick, tickPio1Phase, tickPio2Phase, tickCtcPhase]
  have hm := tickMemPhase_blink { s with cpu := (cf.z80_tick s.cpu pins).1 }
      (cf.z80_tick s.cpu pins).2
  have ha := tickAudioPhase_blink cf
  constructor <;> simp [ha, hm.1, hm.2]

/-- Helper: starting from `blink_counter = n`, running `n` ticks
counts the counter down to zero without flipping the blink
flip-flop. -/
theorem runTicks_blink_countdown (cf : ChipFns) :
    ∀ n (s : Z9001State) (pins : Nat), s.blink_counter = n →
      (runTicks cf n s pins).1.blink_counter = 0 ∧
      (runTicks cf n s pins).1.blink_flip_flop = s.blink_flip_flop := by
  intro n
  induction n with
  | zero =>
    intro s pins h
    exact ⟨h, rfl⟩
  | succ m ih =>
    intro s pins h
    have ht := z9001_tick_blink cf s pins
    have hbc : (z9001_tick cf s pins).1.blink_counter = m := by
      rw [ht.1, blinkStep, h]
      simp
    have hff : (z9001_tick cf s pins).1.blink_flip_flop = s.blink_flip_flop := by
      rw [ht.2, blinkStep, h]
      simp
    have := ih (z9001_tick cf s pins).1 (z9001_tick cf s pins).2 hbc
    simpa [runTicks, hff] using this

/-- Claim C1 (code bug): on a valid bare-format (KCC) image,
`z9001_quickload` writes the payload into memory yet reports failure:
the return value is `false` although the data matched the bare format
and passed all plausibility checks, and the machine state was
modified.  (`_z9001_load_kcc` ends in `return false` although it has
already loaded the image; the `false` of `z9001_quickload` is
documented there as "not a known file type".) -/
theorem c1_quickload_false_despite_kcc_load :
    (z9001_quickload s0 kccData1).2 = false ∧
    (z9001_quickload s0 kccData1).1.ram 0x0300 = 0xAB ∧
    s0.ram 0x0300 = 0 := by
  refine ⟨rfl, by decide, rfl⟩

/-- Claim C2 (code bug): for an accepted bare-format image declaring
an execute address (`num_addr > 2`, load 0x0300, end 0x0310, exec
0x0305) the payload is loaded but the CPU registers are NOT cleared
and the next fetch address is NOT redirected to 0x0305 -- the CPU
state is bit-identical to before -- and the call even reports failure.
(`_z9001_load_kcc` never calls `_z9001_load_start`.) -/
theorem c2_kcc_exec_addr_ignored :
    (z9001_quickload s0 kccData2).1.cpu = s0.cpu ∧
    (z9001_quickload s0 kccData2).1.cpu.pc = 0xF000 ∧
    (z9001_quickload s0 kccData2).2 = false ∧
    (z9001_quickload s0 kccData2).1.ram 0x0300 = 1 := by
  refine ⟨by decide, by decide, rfl, by decide⟩

/-- Helper: when the stop flag is already set, the debug loop executes
no tick at all. -/
theorem runTicksDbg_stop_now (cf : ChipFns) (stopped : Nat → Bool) (rem tick : Nat)
    (s : Z9001State) (pins : Nat) (h : stopped tick = true) :
    runTicksDbg cf stopped rem tick s pins = (s, pins, tick) := by
  cases rem with
  | zero => rfl
  | succ n => simp [runTicksDbg, h]

/-- Claim C4 (counterexample): with a debug hook installed and the
stop flag already set, `z9001_exec(1000us)` executes zero ticks but
still returns 2457 -- the converted tick count -- so the return value
is NOT the number of ticks actually executed under early
termination. -/
theorem c4_exec_return_not_executed_count :
    (z9001_exec cf0 stopAlways s4 1000).2 = 2457 ∧
    z9001_exec_executed cf0 stopAlways s4 1000 = 0 ∧
    (2457 : Nat) ≠ 0 := by
  refine ⟨rfl, ?_, by decide⟩
  have hd : s4.debug = 5 := rfl
  simp [z9001_exec_executed, hd,
    runTicksDbg_stop_now cf0 stopAlways (clk_us_to_ticks FREQUENCY 1000) 0 s4 s4.pins rfl]

/-- Claim C4 (amended): `z9001_exec` always returns the tick count
converted from the microsecond argument (`clk_us_to_ticks`),
regardless of the debug hook; the number of ticks actually executed
never exceeds this value and equals it whenever no debug hook is
installed -- under an early debug stop the return value overstates the
executed ticks. -/
theorem z9001_exec_returns_converted_ticks (cf : ChipFns) (stopped : Nat → Bool)
    (s : Z9001State) (us : Nat) :
    (z9001_exec cf stopped s us).2 = clk_us_to_ticks FREQUENCY us ∧
    z9001_exec_executed cf stopped s us ≤ clk_us_to_ticks FREQUENCY us ∧
    (s.debug = 0 →
      z9001_exec_executed cf stopped s us = (z9001_exec cf stopped s us).2) := by
  refine ⟨rfl, ?_, ?_⟩
  · by_cases h : s.debug = 0
    · simp [z9001_exec_executed, h]
    · simpa [z9001_exec_executed, h] using
        runTicksDbg_count_le cf stopped (clk_us_to_ticks FREQUENCY us) 0 s s.pins
  · intro h
    simp [z9001_exec_executed, z9001_exec, h]

/-- Witness for claim C4 at a concrete input without a debug hook:
the return value is the converted tick count and equals the executed
tick count. -/
theorem z9001_exec_returns_converted_ticks_witness :
    (z9001_exec cf0 stopAlways s0 3).2 = clk_us_to_ticks FREQUENCY 3 ∧
    z9001_exec_executed cf0 stopAlways s0 3 ≤ clk_us_to_ticks FREQUENCY 3 ∧
    z9001_exec_executed cf0 stopAlways s0 3 = (z9001_exec cf0 stopAlways s0 3).2 :=
  ⟨(z9001_exec_returns_converted_ticks cf0 stopAlways s0 3).1,
   (z9001_exec_returns_converted_ticks cf0 stopAlways s0 3).2.1,
   (z9001_exec_returns_converted_ticks cf0 stopAlways s0 3).2.2 rfl⟩

/-- Claim C5 (counterexample): at `blink_counter = 0` one tick reloads
the counter to 786432 = (2457600*8)/25 cycles and flips bit 7 of the
blink phase byte; 786432 is not the claimed clock/25/8 = 12288. -/
theorem c5_blink_reload_is_clock_times_8_div_25 :
    ((z9001_tick cf0 s0 0).1).blink_counter = 786432 ∧
    ((z9001_tick cf0 s0 0).1).blink_flip_flop = 0x80 ∧
    (2457600 * 8) / 25 = 786432 ∧
    2457600 / 25 / 8 = 12288 ∧
    (786432 : Nat) ≠ 12288 := by
  refine ⟨by decide, by decide, by decide, by decide, by decide⟩

/-- Claim C5 (amended): every tick advances the blink state by one
`blinkStep` -- the down-counter decrements, and when it has reached
zero it reloads to the clock-frequency-derived period
(_Z9001_FREQUENCY*8)/25 = 786432 cycles while bit 7 of the blink phase
byte flips; hence from `blink_counter = 0` the flip-flop's high bit
toggles exactly once per 786433 ≈ clock*8/25 ticks. -/
theorem z9001_tick_blink_period (cf : ChipFns) (s : Z9001State) (pins : Nat)
    (h : s.blink_counter = 0) :
    (z9001_tick cf s pins).1.blink_counter = FREQUENCY * 8 / 25 ∧
    (z9001_tick cf s pins).1.blink_flip_flop = s.blink_flip_flop ^^^ 0x80 ∧
    (runTicks cf 786433 s pins).1.blink_counter = 0 ∧
    (runTicks cf 786433 s pins).1.blink_flip_flop = s.blink_flip_flop ^^^ 0x80 := by
  have ht := z9001_tick_blink cf s pins
  have h1 : (z9001_tick cf s pins).1.blink_counter = FREQUENCY * 8 / 25 := by
    rw [ht.1, blinkStep, h]
    simp
  have h2 : (z9001_tick cf s pins).1.blink_flip_flop = s.blink_flip_flop ^^^ 0x80 := by
    rw [ht.2, blinkStep, h]
    simp
  have hn : (786433 : Nat) = 786432 + 1 := by norm_num
  have hsucc : ∀ n, runTicks cf (n + 1) s pins
      = runTicks cf n (z9001_tick cf s pins).1 (z9001_tick cf s pins).2 := fun n => rfl
  have hstep : runTicks cf 786433 s pins
      = runTicks cf 786432 (z9001_tick cf s pins).1 (z9001_tick cf s pins).2 := by
    rw [hn, hsucc]
  have hc : (z9001_tick cf s pins).1.blink_counter = 786432 := by
    rw [h1]
    rfl
  refine ⟨h1, h2, ?_, ?_⟩
  · rw [hstep]
    exact (runTicks_blink_countdown cf 786432 _ _ hc).1
  · rw [hstep]
    rw [(runTicks_blink_countdown cf 786432 _ _ hc).2]
    exact h2

/-- Witness for claim C5 at a concrete machine state with
`blink_counter = 0`. -/
theorem z9001_tick_blink_period_witness :
    (z9001_tick cf0 s0 7).1.blink_counter = FREQUENCY * 8 / 25 ∧
    (z9001_tick cf0 s0 7).1.blink_flip_flop = s0.blink_flip_flop ^^^ 0x80 ∧
    (runTicks cf0 786433 s0 7).1.blink_counter = 0 ∧
    (runTicks cf0 786433 s0 7).1.blink_flip_flop = s0.blink_flip_flop ^^^ 0x80 :=
  z9001_tick_blink_period cf0 s0 7 rfl

/-- Helper: a masked word is nonzero on a single-bit mask exactly when
that bit is set. -/
theorem and_shift_ne_iff (x k : Nat) : x &&& (1 <<< k) ≠ 0 ↔ x.testBit k = true := by
  rw [Nat.one_shiftLeft, Nat.and_two_pow]
  cases h : x.testBit k <;> simp [Nat.pos_pow_of_pos]

/-- Helper: `mem_wr` does not touch the CTC state or the cascade
latch. -/
theorem mem_wr_ctc (s : Z9001State) (a v : Nat) :
    (mem_wr s a v).ctc_zcto2 = s.ctc_zcto2 ∧ (mem_wr s a v).ctc = s.ctc := by
  simp only [mem_wr]
  split <;> exact ⟨rfl, rfl⟩

/-- Helper: the memory phase does not touch the CTC state or the
cascade latch. -/
theorem tickMemPhase_ctc (s : Z9001State) (p : Nat) :
    (tickMemPhase s p).1.ctc_zcto2 = s.ctc_zcto2 ∧ (tickMemPhase s p).1.ctc = s.ctc := by
  simp only [tickMemPhase]
  split
  · split
    · exact ⟨rfl, rfl⟩
    · split
      · exact mem_wr_ctc s _ _
      · exact ⟨rfl, rfl⟩
  · exact ⟨rfl, rfl⟩

/-- Helper: the audio phase does not touch the cascade latch. -/
theorem tickAudioPhase_ctc_zcto2 (cf : ChipFns) (s : Z9001State) :
    (tickAudioPhase cf s).ctc_zcto2 = s.ctc_zcto2 := by
  simp only [tickAudioPhase]
  split
  · split <;> rfl
  · rfl

/-- Helper: the PIO-1 phase changes only the PIO-1 state. -/
theorem tickPio1Phase_ctc (cf : ChipFns) (s : Z9001State) (p : Nat) :
    (tickPio1Phase cf s p).1.ctc = s.ctc := rfl

/-- Helper: the PIO-1 phase keeps the cascade latch. -/
theorem tickPio1Phase_latch (cf : ChipFns) (s : Z9001State) (p : Nat) :
    (tickPio1Phase cf s p).1.ctc_zcto2 = s.ctc_zcto2 := rfl

/-- Helper: the PIO-2 phase changes only the PIO-2 and keyboard
state. -/
theorem tickPio2Phase_ctc (cf : ChipFns) (s : Z9001State) (p : Nat) :
    (tickPio2Phase cf s p).1.ctc = s.ctc := rfl

/-- Helper: the PIO-2 phase keeps the cascade latch. -/
theorem tickPio2Phase_latch (cf : ChipFns) (s : Z9001State) (p : Nat) :
    (tickPio2Phase cf s p).1.ctc_zcto2 = s.ctc_zcto2 := rfl

/-- Helper: masking with the single ZCTO2 pin bit, in testBit form. -/
theorem and_zcto2_eq_zero_iff (x : Nat) :
    (x &&& Z80CTC_ZCTO2 = 0) ↔ x.testBit 49 = false := by
  have ha : x &&& Z80CTC_ZCTO2 = (x.testBit 49).toNat * 2 ^ 49 := by
    have hb := Nat.and_two_pow x 49
    have hc : Z80CTC_ZCTO2 = 2 ^ 49 := by decide
    rw [hc]
    exact hb
  rw [ha]
  cases hb : x.testBit 49 <;> simp [hb]

/-- Helper: the CLKTRG3 bit presented to the CTC is decided purely by
the re-injected cascade latch: on a bus word with bits 46 and 49
clear, the decorated CTC input has CLKTRG3 set exactly when the latch
is nonzero. -/
theorem tickCtcPinsIn_clktrg3_aux (s : Z9001State) (q : Nat)
    (hq46 : q.testBit 46 = false) (hq49 : q.testBit 49 = false)
    (h : s.ctc_zcto2 = 0 ∨ s.ctc_zcto2 = Z80CTC_ZCTO2) :
    (tickCtcPinsIn s q &&& Z80CTC_CLKTRG3 ≠ 0 ↔ s.ctc_zcto2 ≠ 0) := by
  have hce46 : Nat.testBit Z80CTC_CE 46 = false := by decide
  have hce49 : Nat.testBit Z80CTC_CE 49 = false := by decide
  have hcs046 : Nat.testBit Z80CTC_CS0 46 = false := by decide
  have hcs049 : Nat.testBit Z80CTC_CS0 49 = false := by decide
  have hcs146 : Nat.testBit Z80CTC_CS1 46 = false := by decide
  have hcs149 : Nat.testBit Z80CTC_CS1 49 = false := by decide
  have hz46 : Nat.testBit Z80CTC_ZCTO2 46 = false := by decide
  have hz49 : Nat.testBit Z80CTC_ZCTO2 49 = true := by decide
  have hg46 : Nat.testBit (1 <<< 46) 46 = true := by decide
  have hg46c : Z80CTC_CLKTRG3.testBit 46 = true := by decide
  have hzne : Z80CTC_ZCTO2 ≠ 0 := by decide
  rw [show Z80CTC_CLKTRG3 = 1 <<< 46 from rfl, and_shift_ne_iff]
  simp only [tickCtcPinsIn]
  rcases h with h0 | h0 <;>
    simp only [h0, Nat.or_zero] <;>
    split_ifs <;>
      simp_all only [ne_eq, and_zcto2_eq_zero_iff, Nat.testBit_lor, Bool.or_eq_true,
        Bool.not_eq_false, Bool.or_eq_false_iff, Nat.testBit_lor, hg46, hg46c,
        not_true_eq_false, not_false_eq_true, Bool.false_eq_true, or_self,
        iff_true, iff_false] <;>
      simp_all

/-- Helper: `tickCtcPinsIn_clktrg3_aux` applied to the stripped bus
word that reaches the CTC phase inside `_z9001_tick`. -/
theorem tickCtcPinsIn_clktrg3 (s : Z9001State) (w : Nat)
    (h : s.ctc_zcto2 = 0 ∨ s.ctc_zcto2 = Z80CTC_ZCTO2) :
    (tickCtcPinsIn s (w &&& Z80_PIN_MASK) &&& Z80CTC_CLKTRG3 ≠ 0 ↔ s.ctc_zcto2 ≠ 0) := by
  refine tickCtcPinsIn_clktrg3_aux s _ ?_ ?_ h
  · rw [Nat.testBit_land]
    have hm : Z80_PIN_MASK.testBit 46 = false := by decide
    rw [hm, Bool.and_false]
  · rw [Nat.testBit_land]
    have hm : Z80_PIN_MASK.testBit 49 = false := by decide
    rw [hm, Bool.and_false]

/-- Helper: `tickCtcPinsIn_clktrg3` with the stripped word given by an
existential. -/
theorem tickCtcPinsIn_clktrg3w (s : Z9001State) (q : Nat)
    (hq : ∃ w, q = w &&& Z80_PIN_MASK)
    (h : s.ctc_zcto2 = 0 ∨ s.ctc_zcto2 = Z80CTC_ZCTO2) :
    (tickCtcPinsIn s q &&& Z80CTC_CLKTRG3 ≠ 0 ↔ s.ctc_zcto2 ≠ 0) := by
  obtain ⟨w, rfl⟩ := hq
  exact tickCtcPinsIn_clktrg3 s w h

/-- Helper: projections of `tickMemPhase_ctc`. -/
theorem tickMemPhase_latchF (s : Z9001State) (p : Nat) :
    (tickMemPhase s p).1.ctc_zcto2 = s.ctc_zcto2 := (tickMemPhase_ctc s p).1

/-- Helper: the memory phase keeps the CTC chip state. -/
theorem tickMemPhase_ctcF (s : Z9001State) (p : Nat) :
    (tickMemPhase s p).1.ctc = s.ctc := (tickMemPhase_ctc s p).2

/-- Helper: inside `_z9001_tick`, the stored cascade latch and the
returned pin word both come from the CTC tick output on the
`ctcTickInput` word: the latch keeps exactly the ZCTO2 bit, the
returned word is stripped to the Z80 pin mask. -/
theorem z9001_tick_ctc_fields (cf : ChipFns) (s : Z9001State) (pins : Nat) :
    (z9001_tick cf s pins).1.ctc_zcto2
        = (cf.ctc_tick s.ctc (ctcTickInput cf s pins)).2 &&& Z80CTC_ZCTO2 ∧
    (z9001_tick cf s pins).2
        = (cf.ctc_tick s.ctc (ctcTickInput cf s pins)).2 &&& Z80_PIN_MASK := by
  constructor <;>
    simp only [z9001_tick, ctcTickInput, tickCtcPhase, tickAudioPhase_ctc_zcto2,
      tickPio2Phase_ctc, tickPio1Phase_ctc, tickMemPhase_ctcF]

/-- Helper: the latch alternatives for any masked word. -/
theorem and_zcto2_cases (x : Nat) :
    x &&& Z80CTC_ZCTO2 = 0 ∨ x &&& Z80CTC_ZCTO2 = Z80CTC_ZCTO2 := by
  have hc : Z80CTC_ZCTO2 = 2 ^ 49 := by decide
  have hb := Nat.and_two_pow x 49
  rw [hc, hb]
  cases ht : x.testBit 49 <;> simp

/-- Claim C9: at every tick the CLKTRG3 input presented to the CTC is
asserted exactly when the latched channel-2 output (`ctc_zcto2`) of
the immediately preceding tick is; the latch stored back into the
machine instance is exactly the ZCTO2 bit of the CTC tick output (so
it again satisfies the latch invariant and, being a struct field,
survives across separate `exec` calls); and the pin word returned by
the tick -- the one stored between ticks -- is stripped of every
chip-specific pin (all bits at and above bit 40, ZCTO2 included). -/
theorem z9001_ctc_cascade (cf : ChipFns) (s : Z9001State) (pins : Nat)
    (h : s.ctc_zcto2 = 0 ∨ s.ctc_zcto2 = Z80CTC_ZCTO2) :
    (ctcTickInput cf s pins &&& Z80CTC_CLKTRG3 ≠ 0 ↔ s.ctc_zcto2 ≠ 0) ∧
    (z9001_tick cf s pins).1.ctc_zcto2
        = (cf.ctc_tick s.ctc (ctcTickInput cf s pins)).2 &&& Z80CTC_ZCTO2 ∧
    ((z9001_tick cf s pins).1.ctc_zcto2 = 0 ∨
      (z9001_tick cf s pins).1.ctc_zcto2 = Z80CTC_ZCTO2) ∧
    (z9001_tick cf s pins).2 < 2 ^ 40 ∧
    (z9001_tick cf s pins).2 &&& Z80CTC_ZCTO2 = 0 := by
  have hf := z9001_tick_ctc_fields cf s pins
  have hu : ∀ (u : Z9001State) (p : Nat), u.ctc_zcto2 = s.ctc_zcto2 →
      (tickCtcPinsIn (tickPio2Phase cf u p).1 (tickPio2Phase cf u p).2
        &&& Z80CTC_CLKTRG3 ≠ 0 ↔ s.ctc_zcto2 ≠ 0) := by
    intro u p hup
    have h2 : (tickPio2Phase cf u p).1.ctc_zcto2 = s.ctc_zcto2 := by
      rw [tickPio2Phase_latch]
      exact hup
    have h' : (tickPio2Phase cf u p).1.ctc_zcto2 = 0 ∨
        (tickPio2Phase cf u p).1.ctc_zcto2 = Z80CTC_ZCTO2 := by
      rw [h2]
      exact h
    have hmain := tickCtcPinsIn_clktrg3w (tickPio2Phase cf u p).1
        (tickPio2Phase cf u p).2 ⟨_, rfl⟩ h'
    rw [h2] at hmain
    exact hmain
  refine ⟨?_, hf.1, ?_, ?_, ?_⟩
  · simp only [ctcTickInput]
    exact hu _ _ (by rw [tickPio1Phase_latch, tickMemPhase_latchF])
  · rw [hf.1]
    exact and_zcto2_cases _
  · rw [hf.2]
    exact lt_of_le_of_lt Nat.and_le_right (by decide)
  · rw [hf.2, and_zcto2_eq_zero_iff, Nat.testBit_land]
    have hm : Z80_PIN_MASK.testBit 49 = false := by decide
    rw [hm, Bool.and_false]

/-- Witness for claim C9 at a concrete machine state satisfying the
latch invariant (`ctc_zcto2 = 0`). -/
theorem z9001_ctc_cascade_witness :
    (ctcTickInput cf0 s0 0 &&& Z80CTC_CLKTRG3 ≠ 0 ↔ s0.ctc_zcto2 ≠ 0) ∧
    (z9001_tick cf0 s0 0).1.ctc_zcto2
        = (cf0.ctc_tick s0.ctc (ctcTickInput cf0 s0 0)).2 &&& Z80CTC_ZCTO2 ∧
    ((z9001_tick cf0 s0 0).1.ctc_zcto2 = 0 ∨
      (z9001_tick cf0 s0 0).1.ctc_zcto2 = Z80CTC_ZCTO2) ∧
    (z9001_tick cf0 s0 0).2 < 2 ^ 40 ∧
    (z9001_tick cf0 s0 0).2 &&& Z80CTC_ZCTO2 = 0 :=
  z9001_ctc_cascade cf0 s0 0 (Or.inl rfl)

/-- Helper: the zeroed fixture memory is byte-valued. -/
theorem s0_ram_lt (a : Nat) : s0.ram a < 256 := by
  show (0 : Nat) < 256
  norm_num

/-- Helper: the zeroed fixture font ROM is byte-valued. -/
theorem s0_font_lt (a : Nat) : s0.rom_font a < 256 := by
  show (0 : Nat) < 256
  norm_num

/-- Helper: exhaustive check of the nibble lookup expansion -- byte
`i` of the 32-bit word `bg32 ^^^ (xor32 &&& lut32 n)` is the
foreground colour value when bit `3-i` of the nibble is set and the
background value otherwise. -/
theorem decode8_core : ∀ c < 256, ∀ n < 16, ∀ i < 4,
    ((((c * 0x01010101) &&& 0x07070707) ^^^
      ((((c * 0x01010101) &&& 0x07070707) ^^^
        (((c * 0x01010101) >>> 4) &&& 0x07070707)) &&& lut32 n))
        >>> (8 * i)) &&& 0xFF
    = if n.testBit (3 - i) then (c >>> 4) &&& 7 else c &&& 7 := by decide

/-- Helper: the per-byte specification of `_z9001_decode_8pixels` --
destination byte `i` is the foreground colour `(c >> 4) & 7` when bit
`7-i` of the glyph byte is set, and the background colour `c & 7`
otherwise. -/
theorem decode8Pixels_spec : ∀ p c i : Nat, p < 256 → c < 256 → i < 8 →
    decode8Pixels p c i = if p.testBit (7 - i) then (c >>> 4) &&& 7 else c &&& 7 := by
  intro p c i hp hc hi
  by_cases h4 : i < 4
  · have hmod : i % 4 = i := Nat.mod_eq_of_lt h4
    have hn : p >>> 4 < 16 := by
      rw [Nat.shiftRight_eq_div_pow]
      omega
    have hcore := decode8_core c hc (p >>> 4) hn i h4
    simp only [decode8Pixels, if_pos h4]
    rw [hmod, hcore]
    have ht : (p >>> 4).testBit (3 - i) = p.testBit (7 - i) := by
      rw [Nat.testBit_shiftRight]
      congr 1
      omega
    rw [ht]
  · have hmod : i % 4 = i - 4 := by omega
    have hn : p &&& 0xF < 16 := by
      have h15 : p &&& 0xF ≤ 0xF := Nat.and_le_right
      omega
    have hcore := decode8_core c hc (p &&& 0xF) hn (i - 4) (by omega)
    simp only [decode8Pixels, if_neg h4]
    rw [hmod, hcore]
    have ht : (p &&& 0xF).testBit (3 - (i - 4)) = p.testBit (7 - i) := by
      rw [Nat.testBit_land]
      have hlt : 3 - (i - 4) < 4 := by omega
      have h15 : ∀ j, j < 4 → Nat.testBit 0xF j = true := by decide
      rw [h15 _ hlt, Bool.and_true]
      congr 1
      omega
    rw [ht]

/-- Helper: every byte `_z9001_decode_8pixels` emits is one of the two
3-bit colour values, hence below 8. -/
theorem decode8Pixels_lt (p c i : Nat) (hp : p < 256) (hc : c < 256) (hi : i < 8) :
    decode8Pixels p c i < 8 := by
  rw [decode8Pixels_spec p c i hp hc hi]
  split <;> exact lt_of_le_of_lt Nat.and_le_right (by norm_num)

/-- Helper: a pixel-cell write leaves indices below its base alone. -/
theorem writeCell_lt (fb : Nat → Nat) (base p c idx : Nat) (h : idx < base) :
    writeCell fb base p c idx = fb idx := by
  simp only [writeCell]
  rw [if_neg (by omega : ¬(base ≤ idx ∧ idx < base + 8))]

/-- Helper: a pixel-cell write fills its own 8 bytes. -/
theorem writeCell_hit (fb : Nat → Nat) (base p c idx : Nat)
    (h1 : base ≤ idx) (h2 : idx < base + 8) :
    writeCell fb base p c idx = decode8Pixels p c (idx - base) := by
  simp only [writeCell]
  rw [if_pos ⟨h1, h2⟩]

/-- Helper: the column loop leaves indices below the scanline start
alone. -/
theorem decodeCols_lt (s : Z9001State) (offset rowBase py : Nat) :
    ∀ n fb idx, idx < rowBase → decodeCols s offset rowBase py n fb idx = fb idx := by
  intro n
  induction n with
  | zero => intro fb idx _; rfl
  | succ m ih =>
    intro fb idx h
    simp only [decodeCols]
    rw [writeCell_lt _ _ _ _ _ (by omega)]
    exact ih fb idx h

/-- Helper: after the column loop, the cell at column `x` holds its
own decoded pixels. -/
theorem decodeCols_hit (s : Z9001State) (offset rowBase py : Nat) :
    ∀ n x i fb, x < n → i < 8 →
      decodeCols s offset rowBase py n fb (rowBase + 8 * x + i)
        = decode8Pixels (cellPixels s offset x py) (cellColors s offset x) i := by
  intro n
  induction n with
  | zero => intro x i fb hx _; exact absurd hx (Nat.not_lt_zero x)
  | succ m ih =>
    intro x i fb hx hi
    simp only [decodeCols]
    by_cases hxm : x = m
    · subst hxm
      rw [writeCell_hit _ _ _ _ _ (by omega) (by omega)]
      congr 1
      omega
    · rw [writeCell_lt _ _ _ _ _ (by omega)]
      exact ih x i fb (by omega) hi

/-- Helper: the scanline loop leaves indices below the character row
alone. -/
theorem decodeScanlines_lt (s : Z9001State) (offset y : Nat) :
    ∀ n fb idx, idx < y * 8 * 512 → decodeScanlines s offset y n fb idx = fb idx := by
  intro n
  induction n with
  | zero => intro fb idx _; rfl
  | succ m ih =>
    intro fb idx h
    simp only [decodeScanlines, FB_WIDTH]
    rw [decodeCols_lt s offset ((y * 8 + m) * 512) m 40 _ idx (by omega)]
    exact ih fb idx h

/-- Helper: after the scanline loop, scanline `py` of the row holds
its decoded pixels. -/
theorem decodeScanlines_hit (s : Z9001State) (offset y : Nat) :
    ∀ n py x i fb, py < n → x < 40 → i < 8 →
      decodeScanlines s offset y n fb ((y * 8 + py) * 512 + 8 * x + i)
        = decode8Pixels (cellPixels s offset x py) (cellColors s offset x) i := by
  intro n
  induction n with
  | zero => intro py x i fb hpy _ _; exact absurd hpy (Nat.not_lt_zero py)
  | succ m ih =>
    intro py x i fb hpy hx hi
    simp only [decodeScanlines, FB_WIDTH]
    by_cases hpm : py = m
    · subst hpm
      exact decodeCols_hit s offset ((y * 8 + py) * 512) py 40 x i _ hx hi
    · rw [decodeCols_lt s offset ((y * 8 + m) * 512) m 40 _ _ (by omega)]
      exact ih py x i fb (by omega) hx hi

/-- Helper: after the row loop, every cell holds its decoded
pixels. -/
theorem decodeRows_hit (s : Z9001State) :
    ∀ n y py x i fb, y < n → py < 8 → x < 40 → i < 8 →
      decodeRows s n fb ((y * 8 + py) * 512 + 8 * x + i)
        = decode8Pixels (cellPixels s (40 * y) x py) (cellColors s (40 * y) x) i := by
  intro n
  induction n with
  | zero => intro y py x i fb hy _ _ _; exact absurd hy (Nat.not_lt_zero y)
  | succ m ih =>
    intro y py x i fb hy hpy hx hi
    simp only [decodeRows]
    by_cases hym : y = m
    · subst hym
      exact decodeScanlines_hit s (40 * y) y 8 py x i _ hpy hx hi
    · rw [decodeScanlines_lt s (40 * m) m 8 _ _ (by omega)]
      exact ih y py x i fb (by omega) hpy hx hi

/-- Helper: the framebuffer byte `_z9001_decode_vidmem` produces for
pixel `i` of column `x`, scanline `py`, character row `y`. -/
theorem decode_vidmem_cell (s : Z9001State) (y py x i : Nat)
    (hy : y < 24) (hpy : py < 8) (hx : x < 40) (hi : i < 8) :
    (z9001_decode_vidmem s).fb ((y * 8 + py) * 512 + 8 * x + i)
      = decode8Pixels (cellPixels s (40 * y) x py) (cellColors s (40 * y) x) i := by
  simp only [z9001_decode_vidmem]
  exact decodeRows_hit s 24 y py x i s.fb hy hpy hx hi

/-- Claim C8: the 8-pixel expansion writes its 8 destination bytes
through the 16-entry nibble lookup table so that byte `i` equals the
foreground value `(c >> 4) & 7` when glyph bit `7-i` is set and the
background value `c & 7` otherwise; consequently a character cell with
blink disabled decodes, byte for byte, to its font glyph rendered in
the configured foreground/background colours. -/
theorem z9001_decode_cell_glyph (s : Z9001State) (y x py i : Nat)
    (hy : y < 24) (hx : x < 40) (hpy : py < 8) (hi : i < 8)
    (hram : ∀ a, s.ram a < 256) (hfont : ∀ a, s.rom_font a < 256)
    (hbl : s.isKC87 = true →
      s.ram (0xE800 + (40 * y + x)) &&& s.blink_flip_flop &&& 0x80 = 0) :
    (∀ p c j, p < 256 → c < 256 → j < 8 →
        decode8Pixels p c j = if p.testBit (7 - j) then (c >>> 4) &&& 7 else c &&& 7) ∧
    (z9001_decode_vidmem s).fb ((y * 8 + py) * 512 + 8 * x + i)
      = (if (s.rom_font ((s.ram (0xEC00 + (40 * y + x)) <<< 3) ||| py)).testBit (7 - i)
         then ((if s.isKC87 then s.ram (0xE800 + (40 * y + x)) else 0x70) >>> 4) &&& 7
         else (if s.isKC87 then s.ram (0xE800 + (40 * y + x)) else 0x70) &&& 7) := by
  refine ⟨decode8Pixels_spec, ?_⟩
  have hcc : cellColors s (40 * y) x
      = (if s.isKC87 then s.ram (0xE800 + (40 * y + x)) else 0x70) := by
    simp only [cellColors]
    by_cases hk : s.isKC87
    · rw [if_pos hk, if_pos hk, if_neg (fun hne => hne (hbl hk))]
    · rw [if_neg hk, if_neg hk]
  have hccb : (if s.isKC87 then s.ram (0xE800 + (40 * y + x)) else 0x70) < 256 := by
    split
    · exact hram _
    · norm_num
  rw [decode_vidmem_cell s y py x i hy hpy hx hi, hcc]
  exact decode8Pixels_spec _ _ i (hfont _) hccb hi

/-- Witness for claim C8 at a concrete machine state and cell. -/
theorem z9001_decode_cell_glyph_witness :
    decode8Pixels 65 35 0
      = (if Nat.testBit 65 (7 - 0) then (35 >>> 4) &&& 7 else 35 &&& 7) ∧
    (z9001_decode_vidmem s0).fb ((0 * 8 + 0) * 512 + 8 * 0 + 0)
      = (if (s0.rom_font ((s0.ram (0xEC00 + (40 * 0 + 0)) <<< 3) ||| 0)).testBit (7 - 0)
         then ((if s0.isKC87 then s0.ram (0xE800 + (40 * 0 + 0)) else 0x70) >>> 4) &&& 7
         else (if s0.isKC87 then s0.ram (0xE800 + (40 * 0 + 0)) else 0x70) &&& 7) :=
  ⟨(z9001_decode_cell_glyph s0 0 0 0 0 (by decide) (by decide) (by decide) (by decide)
      s0_ram_lt s0_font_lt (by decide)).1 65 35 0
      (by decide) (by decide) (by decide),
   (z9001_decode_cell_glyph s0 0 0 0 0 (by decide) (by decide) (by decide) (by decide)
      s0_ram_lt s0_font_lt (by decide)).2⟩

/-- Claim C10: every framebuffer byte the video decoder writes (any
character row, scanline, column and pixel, on both the monochrome and
the colour variant, for any memory and blink state) is a valid index
into the fixed 8-entry RGBA palette exposed by `z9001_display_info`. -/
theorem z9001_fb_in_palette (s : Z9001State) (y x py i : Nat)
    (hy : y < 24) (hx : x < 40) (hpy : py < 8) (hi : i < 8)
    (hram : ∀ a, s.ram a < 256) (hfont : ∀ a, s.rom_font a < 256) :
    (z9001_decode_vidmem s).fb ((y * 8 + py) * 512 + 8 * x + i)
      < z9001_display_info.palette.length := by
  have hlen : z9001_display_info.palette.length = 8 := rfl
  rw [hlen, decode_vidmem_cell s y py x i hy hpy hx hi]
  have hc : cellColors s (40 * y) x < 256 := by
    simp only [cellColors]
    split
    · split
      · have h1 : (s.ram (0xE800 + (40 * y + x)) &&& 7) <<< 4 < 2 ^ 8 := by
          have hle : s.ram (0xE800 + (40 * y + x)) &&& 7 ≤ 7 := Nat.and_le_right
          rw [Nat.shiftLeft_eq]
          omega
        have h2 : (s.ram (0xE800 + (40 * y + x)) >>> 4) &&& 7 < 2 ^ 8 := by
          have hle : (s.ram (0xE800 + (40 * y + x)) >>> 4) &&& 7 ≤ 7 := Nat.and_le_right
          omega
        exact Nat.or_lt_two_pow h1 h2
      · exact hram _
    · norm_num
  exact decode8Pixels_lt _ _ i (hfont _) hc hi

/-- Witness for claim C10 at a concrete machine state and cell. -/
theorem z9001_fb_in_palette_witness :
    (z9001_decode_vidmem s0).fb ((0 * 8 + 0) * 512 + 8 * 0 + 0)
      < z9001_display_info.palette.length :=
  z9001_fb_in_palette s0 0 0 0 0 (by decide) (by decide) (by decide) (by decide)
    s0_ram_lt s0_font_lt

/-- Helper: a file byte is below 256. -/
theorem byteAt_lt (d : List Nat) (i : Nat) : byteAt d i < 256 := by
  simp only [byteAt]
  omega

/-- Helper: a 16-bit header word assembled from two bytes is below
65536. -/
theorem hdr_word_lt (a b : Nat) (ha : a < 256) (hb : b < 256) : (a <<< 8) ||| b < 65536 := by
  have h1 : a <<< 8 < 2 ^ 16 := by
    rw [Nat.shiftLeft_eq]
    omega
  have h2 : b < 2 ^ 16 := by omega
  exact lt_of_lt_of_le (Nat.or_lt_two_pow h1 h2) (by norm_num)

/-- Helper: `mem_wr` keeps the model variant. -/
theorem mem_wr_isKC87 (s : Z9001State) (a v : Nat) :
    (mem_wr s a v).isKC87 = s.isKC87 := by
  simp only [mem_wr]
  split <;> rfl

/-- Helper: pointwise characterisation of `mem_wr`: only the addressed
byte changes, and only when the 16-bit address decodes to writable
RAM. -/
theorem mem_wr_ram (s : Z9001State) (addr v x : Nat) :
    (mem_wr s addr v).ram x
      = if x = addr % 65536 ∧ memWritable s.isKC87 (addr % 65536) = true
        then v % 256 else s.ram x := by
  simp only [mem_wr]
  by_cases hW : memWritable s.isKC87 (addr % 65536) = true
  · rw [if_pos hW]
    show (if x = addr % 65536 then v % 256 else s.ram x) = _
    by_cases hx : x = addr % 65536
    · rw [if_pos hx, if_pos ⟨hx, hW⟩]
    · rw [if_neg hx, if_neg (fun hc => hx hc.1)]
  · rw [if_neg hW, if_neg (fun hc => hW hc.2)]

/-- Helper: the 128-byte block copy keeps the model variant. -/
theorem kctapWriteBlock_isKC87 (d : List Nat) :
    ∀ n (s : Z9001State) (addr ofs : Nat),
      (kctapWriteBlock d n s addr ofs).isKC87 = s.isKC87 := by
  intro n
  induction n with
  | zero => intro s addr ofs; rfl
  | succ m ih =>
    intro s addr ofs
    simp only [kctapWriteBlock]
    rw [ih, mem_wr_isKC87]

/-- Helper: pointwise effect of the inner 128-byte block copy of
`_z9001_load_kctap` (no 16-bit wrap inside the block). -/
theorem kctapWriteBlock_ram (d : List Nat) :
    ∀ n (s : Z9001State) (addr ofs x : Nat), addr + n ≤ 65536 →
      (kctapWriteBlock d n s addr ofs).ram x
        = if addr ≤ x ∧ x < addr + n ∧ memWritable s.isKC87 x = true
          then byteAt d (ofs + (x - addr)) else s.ram x := by
  intro n
  induction n with
  | zero =>
    intro s addr ofs x _
    rw [if_neg]
    · rfl
    · rintro ⟨h1, h2, _⟩
      omega
  | succ m ih =>
    intro s addr ofs x h
    have haddr : addr < 65536 := by omega
    have hmod : addr % 65536 = addr := Nat.mod_eq_of_lt haddr
    simp only [kctapWriteBlock]
    rw [ih (mem_wr s addr (byteAt d ofs)) (addr + 1) (ofs + 1) x (by omega),
      mem_wr_isKC87, mem_wr_ram, hmod]
    by_cases hW : memWritable s.isKC87 x = true
    · by_cases hx1 : addr + 1 ≤ x ∧ x < addr + 1 + m
      · rw [if_pos ⟨hx1.1, hx1.2, hW⟩, if_pos ⟨by omega, by omega, hW⟩]
        congr 1
        omega
      · rw [if_neg (fun hc => hx1 ⟨hc.1, hc.2.1⟩)]
        by_cases hx0 : x = addr
        · have hWa : memWritable s.isKC87 addr = true := by rw [← hx0]; exact hW
          rw [if_pos ⟨hx0, hWa⟩, if_pos ⟨by omega, by omega, hW⟩]
          subst hx0
          simp only [byteAt, Nat.sub_self, Nat.add_zero]
          omega
        · rw [if_neg (fun hc => hx0 hc.1), if_neg]
          rintro ⟨hga, hgb, _⟩
          exact hx1 ⟨by omega, by omega⟩
    · rw [if_neg (fun hc => hW hc.2.2), if_neg fun hc => hW (by rw [hc.1]; exact hc.2),
        if_neg (fun hc => hW hc.2.2)]

/-- Helper: the block loop keeps the model variant. -/
theorem kctapBlockLoop_isKC87 (d : List Nat) (endAddr : Nat) :
    ∀ fuel (s : Z9001State) (addr ofs : Nat),
      (kctapBlockLoop d endAddr fuel s addr ofs).isKC87 = s.isKC87 := by
  intro fuel
  induction fuel with
  | zero => intro s addr ofs; rfl
  | succ m ih =>
    intro s addr ofs
    simp only [kctapBlockLoop]
    split
    · rw [ih, kctapWriteBlock_isKC87]
    · rfl

/-- Helper: pointwise effect of the whole KC TAP block loop on a
non-wrapping range: the block-aligned region `[addr, blockEnd)` takes
the payload with each block's lead byte stripped (writes through the
memory map), everything else is untouched. -/
theorem kctapBlockLoop_ram (d : List Nat) (endAddr : Nat) :
    ∀ fuel (s : Z9001State) (addr ofs : Nat),
      addr < 65536 →
      blockEnd addr endAddr ≤ 65535 →
      blockCount addr endAddr ≤ fuel →
      ∀ x, (kctapBlockLoop d endAddr fuel s addr ofs).ram x
        = if addr ≤ x ∧ x < blockEnd addr endAddr ∧ memWritable s.isKC87 x = true
          then byteAt d (ofs + 1 + (x - addr) + (x - addr) / 128)
          else s.ram x := by
  intro fuel
  induction fuel with
  | zero =>
    intro s addr ofs ha hB hc x
    simp only [blockCount] at hc
    rw [if_neg]
    · rfl
    · rintro ⟨h1, h2, _⟩
      simp only [blockEnd, blockCount] at h2
      omega
  | succ m ih =>
    intro s addr ofs ha hB hc x
    by_cases hlt : addr < endAddr
    · have hcount : blockCount addr endAddr = blockCount (addr + 128) endAddr + 1 := by
        simp only [blockCount]
        omega
      have hBE : blockEnd (addr + 128) endAddr = blockEnd addr endAddr := by
        simp only [blockEnd]
        rw [hcount]
        omega
      have h128 : addr + 128 ≤ blockEnd addr endAddr := by
        simp only [blockEnd, blockCount]
        omega
      have hmod : (addr + 128) % 65536 = addr + 128 := Nat.mod_eq_of_lt (by omega)
      simp only [kctapBlockLoop]
      rw [if_pos hlt, hmod,
        ih (kctapWriteBlock d 128 s addr (ofs + 1)) (addr + 128) (ofs + 129)
          (by omega) (by rw [hBE]; exact hB) (by omega) x,
        kctapWriteBlock_isKC87, hBE,
        kctapWriteBlock_ram d 128 s addr (ofs + 1) x (by omega)]
      by_cases hW : memWritable s.isKC87 x = true
      · by_cases hx2 : addr + 128 ≤ x ∧ x < blockEnd addr endAddr
        · rw [if_pos ⟨hx2.1, hx2.2, hW⟩, if_pos ⟨by omega, hx2.2, hW⟩]
          congr 1
          omega
        · rw [if_neg (fun hc2 => hx2 ⟨hc2.1, hc2.2.1⟩)]
          by_cases hx1 : addr ≤ x ∧ x < addr + 128
          · rw [if_pos ⟨hx1.1, hx1.2, hW⟩, if_pos ⟨hx1.1, by omega, hW⟩]
            congr 1
            omega
          · rw [if_neg (fun hc1 => hx1 ⟨hc1.1, hc1.2.1⟩), if_neg]
            rintro ⟨hga, hgb, _⟩
            rcases Nat.lt_or_ge x (addr + 128) with hsp | hsp
            · exact hx1 ⟨hga, hsp⟩
            · exact hx2 ⟨hsp, hgb⟩
      · rw [if_neg (fun hc2 => hW hc2.2.2), if_neg (fun hc2 => hW hc2.2.2),
          if_neg (fun hc2 => hW hc2.2.2)]
    · have hc0 : blockCount addr endAddr = 0 := by
        simp only [blockCount]
        omega
      simp only [kctapBlockLoop]
      rw [if_neg hlt, if_neg]
      rintro ⟨h1, h2, _⟩
      simp only [blockEnd, hc0] at h2
      omega

/-- Helper: `_z9001_load_start` touches only the CPU registers and the
pin word. -/
theorem z9001_load_start_ram (s : Z9001State) (e : Nat) :
    (z9001_load_start s e).ram = s.ram := rfl

/-- Claim C3 (counterexample): for the crafted wrapped-format image
with load address 0x0200 and end address 0x0210, a successful
quickload also overwrites memory beyond the declared end address: the
byte at 0x0210 -- outside [0x0200, 0x0210) -- changes from 0 to 17
(the 17th data byte of the 128-byte block), because the block loop
always copies whole 128-byte blocks. -/
theorem c3_kctap_overshoot :
    (z9001_quickload s0 kctapData1).2 = true ∧
    (z9001_quickload s0 kctapData1).1.ram 0x0210 = 17 ∧
    s0.ram 0x0210 = 0 ∧
    (z9001_quickload s0 kctapData1).1.ram 0x0205 = 6 := by
  refine ⟨rfl, by decide, rfl, by decide⟩

/-- Claim C3 (amended): for every accepted wrapped-format (KC TAP)
image with load address L and end address E (block-aligned end B =
L + 128*ceil((E-L)/128) not wrapping past the 16-bit address space), a
successful quickload copies the payload -- each 129-byte block's lead
byte stripped -- through the memory decoder into the whole
block-aligned range [L, B): a RAM-mapped byte at offset `o` from L
becomes payload byte `o` (skipping one lead byte per block), ROM or
unmapped addresses discard their writes, and every byte outside
[L, B) is unchanged.  In particular for L = 0x0200, E = 0x0210 the
bytes of [0x0200, 0x0210) hold the payload, but the write region
extends to 0x0280, not 0x0210. -/
theorem z9001_kctap_block_effect (s : Z9001State) (d : List Nat)
    (hv : z9001_is_valid_kctap d = true)
    (hB : blockEnd (hdrLoadAddr d 17) (hdrEndAddr d 17) ≤ 65535) :
    (z9001_quickload s d).2 = true ∧
    ∀ x, (z9001_quickload s d).1.ram x
      = if hdrLoadAddr d 17 ≤ x ∧
            x < blockEnd (hdrLoadAddr d 17) (hdrEndAddr d 17) ∧
            memWritable s.isKC87 x = true
        then byteAt d (kctapHeaderSize + 1 + (x - hdrLoadAddr d 17)
              + (x - hdrLoadAddr d 17) / 128)
        else s.ram x := by
  have hload : hdrLoadAddr d 17 < 65536 :=
    hdr_word_lt (byteAt d (17 + 18)) (byteAt d (17 + 17)) (byteAt_lt d _) (byteAt_lt d _)
  have hcount : blockCount (hdrLoadAddr d 17) (hdrEndAddr d 17) ≤ 513 := by
    simp only [blockEnd] at hB
    omega
  constructor
  · simp [z9001_quickload, if_pos hv, z9001_load_kctap]
  · intro x
    have hloop := kctapBlockLoop_ram d (hdrEndAddr d 17) 513 s (hdrLoadAddr d 17)
      kctapHeaderSize hload hB hcount x
    simp only [z9001_quickload, if_pos hv, z9001_load_kctap]
    by_cases hna : hdrNumAddr d 17 > 2
    · rw [if_pos hna, z9001_load_start_ram]
      exact hloop
    · rw [if_neg hna]
      exact hloop

/-- Witness for claim C3 at the concrete wrapped image and machine
state: the byte at 0x0205 (inside the declared range) follows the
block-copy formula. -/
theorem z9001_kctap_block_effect_witness :
    (z9001_quickload s0 kctapData1).2 = true ∧
    (z9001_quickload s0 kctapData1).1.ram 0x0205
      = if hdrLoadAddr kctapData1 17 ≤ 0x0205 ∧
            0x0205 < blockEnd (hdrLoadAddr kctapData1 17) (hdrEndAddr kctapData1 17) ∧
            memWritable s0.isKC87 0x0205 = true
        then byteAt kctapData1 (kctapHeaderSize + 1 + (0x0205 - hdrLoadAddr kctapData1 17)
              + (0x0205 - hdrLoadAddr kctapData1 17) / 128)
        else s0.ram 0x0205 :=
  ⟨(z9001_kctap_block_effect s0 kctapData1 (by decide) (by decide)).1,
   (z9001_kctap_block_effect s0 kctapData1 (by decide) (by decide)).2 0x0205⟩

/-- Claim C6: `z9001_load_snapshot` with a version different from
`Z9001_SNAPSHOT_VERSION` returns `false` and leaves the target
instance completely unchanged (the version is checked before anything
is copied); with the matching version it returns `true`. -/
theorem z9001_load_snapshot_version_guard (sys src : Z9001State) (version : Nat) :
    (version ≠ Z9001_SNAPSHOT_VERSION → z9001_load_snapshot sys version src = (sys, false)) ∧
    (version = Z9001_SNAPSHOT_VERSION → (z9001_load_snapshot sys version src).2 = true) := by
  constructor
  · intro h
    simp [z9001_load_snapshot, h]
  · intro h
    simp [z9001_load_snapshot, h]

/-- Witness for claim C6 at concrete inputs: version 2 is rejected
without touching the target, version 1 is accepted. -/
theorem z9001_load_snapshot_version_guard_witness :
    z9001_load_snapshot s0 2 s0 = (s0, false) ∧
    (z9001_load_snapshot s0 1 s0).2 = true :=
  ⟨(z9001_load_snapshot_version_guard s0 s0 2).1 (by decide),
   (z9001_load_snapshot_version_guard s0 s0 1).2 rfl⟩

/-- Claim C7: `z9001_save_snapshot` immediately followed by
`z9001_load_snapshot` with the returned version on the same instance
succeeds and reproduces the framebuffer, RAM, ROM, font ROM, CPU
registers, both PIOs, the CTC, the beeper, the keyboard matrix, the
blink fields, the cascade latch and the pin word bit-identically. -/
theorem z9001_snapshot_roundtrip (sys : Z9001State) :
    (z9001_load_snapshot sys (z9001_save_snapshot sys).2 (z9001_save_snapshot sys).1).2
      = true ∧
    ((z9001_load_snapshot sys (z9001_save_snapshot sys).2 (z9001_save_snapshot sys).1).1).fb
      = sys.fb ∧
    ((z9001_load_snapshot sys (z9001_save_snapshot sys).2 (z9001_save_snapshot sys).1).1).ram
      = sys.ram ∧
    ((z9001_load_snapshot sys (z9001_save_snapshot sys).2 (z9001_save_snapshot sys).1).1).rom
      = sys.rom ∧
    ((z9001_load_snapshot sys (z9001_save_snapshot sys).2 (z9001_save_snapshot sys).1).1).rom_font
      = sys.rom_font ∧
    ((z9001_load_snapshot sys (z9001_save_snapshot sys).2 (z9001_save_snapshot sys).1).1).cpu
      = sys.cpu ∧
    ((z9001_load_snapshot sys (z9001_save_snapshot sys).2 (z9001_save_snapshot sys).1).1).pio1
      = sys.pio1 ∧
    ((z9001_load_snapshot sys (z9001_save_snapshot sys).2 (z9001_save_snapshot sys).1).1).pio2
      = sys.pio2 ∧
    ((z9001_load_snapshot sys (z9001_save_snapshot sys).2 (z9001_save_snapshot sys).1).1).ctc
      = sys.ctc ∧
    ((z9001_load_snapshot sys (z9001_save_snapshot sys).2 (z9001_save_snapshot sys).1).1).beeper
      = sys.beeper ∧
    ((z9001_load_snapshot sys (z9001_save_snapshot sys).2 (z9001_save_snapshot sys).1).1).kbd
      = sys.kbd ∧
    ((z9001_load_snapshot sys (z9001_save_snapshot sys).2 (z9001_save_snapshot sys).1).1).blink_flip_flop
      = sys.blink_flip_flop ∧
    ((z9001_load_snapshot sys (z9001_save_snapshot sys).2 (z9001_save_snapshot sys).1).1).blink_counter
      = sys.blink_counter ∧
    ((z9001_load_snapshot sys (z9001_save_snapshot sys).2 (z9001_save_snapshot sys).1).1).ctc_zcto2
      = sys.ctc_zcto2 ∧
    ((z9001_load_snapshot sys (z9001_save_snapshot sys).2 (z9001_save_snapshot sys).1).1).pins
      = sys.pins := by
  simp [z9001_save_snapshot, z9001_load_snapshot]

end Z9001
